import Mathlib

set_option maxHeartbeats 1000000

/-!
Shallow embedding of the statime PTP port state engine.

The embedding covers the master role state machine
(src/statime/src/port/state/master.rs), the port state dispatcher
(src/statime/src/port/state/mod.rs) and the DelayReq message body codec
(src/statime/src/datastructures/messages/delay_req.rs).  Types that those
files use but whose definitions are not part of the source excerpt
(Time, WireTimestamp, Header, the Message constructors, the sequence id
generator, the slave role) are modelled from the specification; each such
definition carries a doc comment saying so.

Machine integers are modelled as Nat/Int with explicit wrap-around where
the source wraps.  Buffers handed to the full-message serializer are
modelled by their capacity in bytes (the payload of an emitted action is
represented by the message value itself; the byte level wire format of
the DelayReq body is modelled explicitly below for the codec claims).
A fallible clock borrow is modelled as an Option Time: none is a failed
exclusive borrow, some t a successful borrow observing time t.
-/

/-- PTP time as in the source tests: a 96-bit unsigned fixed point number
of nanoseconds with 32 fractional bits (U96F32); bits is the raw
fixed-point bit pattern.  Modelled from the spec (sub-nanosecond
fixed-point time scalar). -/
structure Time where
  bits : Nat
deriving DecidableEq, Repr

/-- Wire 80-bit timestamp: 48-bit seconds and 32-bit nanoseconds.
Modelled from the spec: the WireTimestamp definition is not under src/
(delay_req.rs only uses it); the spec fixes the layout as 48-bit seconds
big-endian followed by 32-bit nanoseconds big-endian. -/
structure WireTimestamp where
  seconds : Nat
  nanos : Nat
deriving DecidableEq, Repr

/-- Whole nanoseconds of a Time, i.e. the fixed point value truncated. -/
def Time.wholeNanos (t : Time) : Nat := t.bits / 4294967296

/-- Modelled from the spec: conversion of a Time into the wire timestamp,
truncating to whole nanoseconds and splitting into seconds and
nanoseconds fields. -/
def Time.truncatedWire (t : Time) : WireTimestamp :=
  { seconds := t.wholeNanos / 1000000000, nanos := t.wholeNanos % 1000000000 }

/-- Modelled from the spec: the sub-nanosecond residue of a Time expressed
as a TimeInterval (signed nanoseconds scaled by 2 to the 16th; the
residue of an unsigned time is non-negative). -/
def Time.subnanoTI (t : Time) : Int := ((t.bits % 4294967296) / 65536 : Nat)

/-- Port identity: an 8 byte clock identity (held as one number) and a
16-bit port number; equality is structural, matching the byte-wise
equality of the source. -/
structure PortIdentity where
  clock_identity : Nat
  port_number : Nat
deriving DecidableEq, Repr

/-- Modelled from the spec: the PTP message header restricted to the
fields the spec names as semantically important (sequenceId,
sourcePortIdentity, correctionField, logMessageInterval and the two-step
flag). -/
structure Header where
  sequence_id : Nat
  source_port_identity : PortIdentity
  correction_field : Int
  log_message_interval : Int
  two_step_flag : Bool
deriving DecidableEq, Repr

/-- Sync message body: the origin timestamp. -/
structure SyncMessage where
  header : Header
  origin_timestamp : WireTimestamp
deriving DecidableEq, Repr

/-- FollowUp message body: the precise origin timestamp. -/
structure FollowUpMessage where
  header : Header
  precise_origin_timestamp : WireTimestamp
deriving DecidableEq, Repr

/-- DelayReq message as in src delay_req.rs: a header and the origin
timestamp. -/
structure DelayReqMessage where
  header : Header
  origin_timestamp : WireTimestamp
deriving DecidableEq, Repr

/-- DelayResp message body: receive timestamp and requesting port
identity. -/
structure DelayRespMessage where
  header : Header
  receive_timestamp : WireTimestamp
  requesting_port_identity : PortIdentity
deriving DecidableEq, Repr

/-- Announce message body, restricted to the grandmaster priority field
the master tests inspect.  Modelled from the spec. -/
structure AnnounceMessage where
  header : Header
  grandmaster_priority_1 : Nat
deriving DecidableEq, Repr

/-- Tagged message variant over the five message kinds of the spec. -/
inductive Message where
  | Sync (m : SyncMessage)
  | FollowUp (m : FollowUpMessage)
  | DelayReq (m : DelayReqMessage)
  | DelayResp (m : DelayRespMessage)
  | Announce (m : AnnounceMessage)
deriving DecidableEq, Repr

/-- Common header of any message variant. -/
def Message.header : Message → Header
  | .Sync m => m.header
  | .FollowUp m => m.header
  | .DelayReq m => m.header
  | .DelayResp m => m.header
  | .Announce m => m.header

/-- Wire codec error taxonomy from the spec. -/
inductive WireFormatError where
  | BufferTooShort
  | UnsupportedMessageType
  | InvalidField
deriving DecidableEq, Repr

/-- Modelled from the spec: on-wire body size of each message variant
(Sync 10, DelayReq 10, DelayResp 20, FollowUp 10, Announce 30). -/
def Message.contentSize : Message → Nat
  | .Sync _ => 10
  | .FollowUp _ => 10
  | .DelayReq _ => 10
  | .DelayResp _ => 20
  | .Announce _ => 30

/-- Modelled from the spec: serializing a full message (34 byte header
plus body) into a caller buffer of capacity cap bytes; returns the
written length, or BufferTooShort when the buffer cannot hold the
message. -/
def Message.serializeLen (m : Message) (cap : Nat) : Except WireFormatError Nat :=
  if 34 + m.contentSize ≤ cap then .ok (34 + m.contentSize)
  else .error .BufferTooShort

/-- Timestamp context payload: which time-critical send is awaiting its
egress timestamp.  Modelled from the spec (variant Sync or DelayReq, each
carrying the sequence id). -/
inductive TimestampContextInner where
  | Sync (id : Nat)
  | DelayReq (id : Nat)
deriving DecidableEq, Repr

/-- Opaque token minted at time-critical send and redeemed when the
hardware reports the egress timestamp. -/
structure TimestampContext where
  inner : TimestampContextInner
deriving DecidableEq, Repr

/-- Modelled from the spec: a message interval held as its log2 value. -/
structure PtpInterval where
  log_2 : Int
deriving DecidableEq, Repr

/-- Modelled from the spec: an interval of 2 to the log_2 seconds as a
core duration, here counted in nanoseconds. -/
def PtpInterval.asCoreDurationNanos (i : PtpInterval) : Nat :=
  if 0 ≤ i.log_2 then 1000000000 * 2 ^ i.log_2.toNat
  else 1000000000 / 2 ^ (-i.log_2).toNat

/-- Output alphabet of the engine.  A send action carries the message
value that was serialized into the caller buffer. -/
inductive PortAction where
  | SendTimeCritical (context : TimestampContext) (data : Message)
  | SendGeneral (data : Message)
  | ResetAnnounceTimer (duration : Nat)
  | ResetSyncTimer (duration : Nat)
  | ResetDelayRequestTimer (duration : Nat)
  | ResetAnnounceReceiptTimer (duration : Nat)
deriving DecidableEq, Repr

/-- Modelled from the spec: a 16-bit wrapping counter whose generate
operation returns the current value and post-increments. -/
structure SequenceIdGenerator where
  curr_id : Nat
deriving DecidableEq, Repr

/-- Generate: return the current id and the post-incremented generator,
wrapping at 2 to the 16th. -/
def SequenceIdGenerator.generate (g : SequenceIdGenerator) :
    Nat × SequenceIdGenerator :=
  (g.curr_id, ⟨(g.curr_id + 1) % 65536⟩)

/-- Default dataset, holding the instance configuration fields. -/
structure DefaultDS where
  clock_identity : Nat
  priority_1 : Nat
  priority_2 : Nat
  domain_number : Nat
  slave_only : Bool
  sdo_id : Nat
deriving DecidableEq, Repr

/-- Per-port configuration, with the fields the master role reads. -/
structure PortConfig where
  delay_mechanism_interval : PtpInterval
  announce_interval : PtpInterval
  announce_receipt_timeout : Nat
  sync_interval : PtpInterval
  master_only : Bool
  delay_asymmetry : Int
deriving DecidableEq, Repr

/-- Modelled from the spec: the slice of instance-global state the master
role reads for Announce, with the clock handle modelled by its borrow
result (none is a failed exclusive borrow). -/
structure PtpInstanceState where
  default_ds : DefaultDS
  parent_grandmaster_priority_1 : Nat
  local_clock : Option Time
deriving DecidableEq, Repr

/-- Modelled from the spec: Message::sync builds a two-step Sync whose
originTimestamp is the clock time truncated to whole nanoseconds and
whose correctionField is zero. -/
def Message.sync (_default_ds : DefaultDS) (port_identity : PortIdentity)
    (seq_id : Nat) (current_time : Time) : Message :=
  .Sync { header := { sequence_id := seq_id
                      source_port_identity := port_identity
                      correction_field := 0
                      log_message_interval := 0
                      two_step_flag := true }
          origin_timestamp := current_time.truncatedWire }

/-- Modelled from the spec: Message::follow_up builds a FollowUp whose
preciseOriginTimestamp is the egress time truncated to whole nanoseconds,
with the sub-nanosecond residue carried in the correctionField, and whose
sequenceId is the Sync's. -/
def Message.follow_up (_default_ds : DefaultDS) (port_identity : PortIdentity)
    (seq_id : Nat) (timestamp : Time) : Message :=
  .FollowUp { header := { sequence_id := seq_id
                          source_port_identity := port_identity
                          correction_field := timestamp.subnanoTI
                          log_message_interval := 0
                          two_step_flag := false }
              precise_origin_timestamp := timestamp.truncatedWire }

/-- Modelled from the spec: Message::delay_resp synthesizes the DelayResp
for a DelayReq: requestingPortIdentity is the request's
sourcePortIdentity, sequenceId is the request's, receiveTimestamp is the
ingress time truncated to whole nanoseconds, logMessageInterval is the
log2 of the minimum DelayReq interval, and the correctionField is the
request's correction plus the ingress time's sub-nanosecond residue. -/
def Message.delay_resp (m : DelayReqMessage) (port_identity : PortIdentity)
    (min_delay_req_interval : PtpInterval) (timestamp : Time) : Message :=
  .DelayResp { header := { sequence_id := m.header.sequence_id
                           source_port_identity := port_identity
                           correction_field :=
                             m.header.correction_field + timestamp.subnanoTI
                           log_message_interval := min_delay_req_interval.log_2
                           two_step_flag := false }
               receive_timestamp := timestamp.truncatedWire
               requesting_port_identity := m.header.source_port_identity }

/-- Modelled from the spec: Message::announce assembles the Announce from
the instance-global datasets (restricted here to the grandmaster
priority the master tests inspect). -/
def Message.announce (global : PtpInstanceState) (port_identity : PortIdentity)
    (seq_id : Nat) (_current_time : Time) : Message :=
  .Announce { header := { sequence_id := seq_id
                          source_port_identity := port_identity
                          correction_field := 0
                          log_message_interval := 0
                          two_step_flag := false }
              grandmaster_priority_1 := global.parent_grandmaster_priority_1 }

/-- Master role state: the two free-running sequence id generators
(src/statime/src/port/state/master.rs). -/
structure MasterState where
  announce_seq_ids : SequenceIdGenerator
  sync_seq_ids : SequenceIdGenerator
deriving DecidableEq, Repr

/-- MasterState::new. -/
def MasterState.new : MasterState := ⟨⟨0⟩, ⟨0⟩⟩

/-- MasterState::handle_sync_timestamp: serialize the FollowUp for the
given sequence id and egress timestamp; emit SendGeneral on success,
nothing on a serialization error. -/
def MasterState.handle_sync_timestamp (s : MasterState) (id : Nat)
    (timestamp : Time) (port_identity : PortIdentity) (default_ds : DefaultDS)
    (cap : Nat) : MasterState × List PortAction :=
  let msg := Message.follow_up default_ds port_identity id timestamp
  match msg.serializeLen cap with
  | .ok _ => (s, [PortAction.SendGeneral msg])
  | .error _ => (s, [])

/-- MasterState::handle_timestamp: route a Sync context to
handle_sync_timestamp, drop anything else. -/
def MasterState.handle_timestamp (s : MasterState) (context : TimestampContext)
    (timestamp : Time) (port_identity : PortIdentity) (default_ds : DefaultDS)
    (cap : Nat) : MasterState × List PortAction :=
  match context.inner with
  | .Sync id => s.handle_sync_timestamp id timestamp port_identity default_ds cap
  | _ => (s, [])

/-- MasterState::send_sync: read the clock (empty result on a failed
borrow), generate the next sync sequence id, serialize the Sync (empty
result, with the generator already advanced, on a serialization error)
and emit ResetSyncTimer followed by SendTimeCritical. -/
def MasterState.send_sync (s : MasterState) (local_clock : Option Time)
    (config : PortConfig) (port_identity : PortIdentity)
    (default_ds : DefaultDS) (cap : Nat) : MasterState × List PortAction :=
  match local_clock with
  | none => (s, [])
  | some current_time =>
    let g := s.sync_seq_ids.generate
    let seq_id := g.fst
    let s' := { s with sync_seq_ids := g.snd }
    let msg := Message.sync default_ds port_identity seq_id current_time
    match msg.serializeLen cap with
    | .error _ => (s', [])
    | .ok _ =>
      (s', [PortAction.ResetSyncTimer config.sync_interval.asCoreDurationNanos,
            PortAction.SendTimeCritical { inner := .Sync seq_id } msg])

/-- MasterState::send_announce: read the clock through the instance
state, generate the next announce sequence id, serialize the Announce and
emit ResetAnnounceTimer followed by SendGeneral. -/
def MasterState.send_announce (s : MasterState) (global : PtpInstanceState)
    (config : PortConfig) (port_identity : PortIdentity) (cap : Nat) :
    MasterState × List PortAction :=
  match global.local_clock with
  | none => (s, [])
  | some current_time =>
    let g := s.announce_seq_ids.generate
    let s' := { s with announce_seq_ids := g.snd }
    let msg := Message.announce global port_identity g.fst current_time
    match msg.serializeLen cap with
    | .error _ => (s', [])
    | .ok _ =>
      (s', [PortAction.ResetAnnounceTimer
              config.announce_interval.asCoreDurationNanos,
            PortAction.SendGeneral msg])

/-- MasterState::handle_delay_req: synthesize and serialize the
DelayResp; emit SendGeneral on success, nothing on a serialization
error. -/
def MasterState.handle_delay_req (s : MasterState) (m : DelayReqMessage)
    (timestamp : Time) (min_delay_req_interval : PtpInterval)
    (port_identity : PortIdentity) (cap : Nat) : MasterState × List PortAction :=
  let msg := Message.delay_resp m port_identity min_delay_req_interval timestamp
  match msg.serializeLen cap with
  | .ok _ => (s, [PortAction.SendGeneral msg])
  | .error _ => (s, [])

/-- MasterState::handle_event_receive: drop self-sourced messages, answer
a DelayReq with a DelayResp, drop anything else. -/
def MasterState.handle_event_receive (s : MasterState) (message : Message)
    (timestamp : Time) (min_delay_req_interval : PtpInterval)
    (port_identity : PortIdentity) (cap : Nat) : MasterState × List PortAction :=
  if message.header.source_port_identity = port_identity then (s, [])
  else
    match message with
    | .DelayReq m =>
      s.handle_delay_req m timestamp min_delay_req_interval port_identity cap
    | _ => (s, [])

/-- Offset and delay measurement handed to the filter (spec section 3). -/
structure Measurement where
  offset_from_master : Int
  mean_path_delay : Int
  event_time : Time
deriving DecidableEq, Repr

/-- Modelled from the spec: slave.rs is not part of the source excerpt.
The slave role's internals lie outside every claim treated here; the
claims about PortState concern only the dispatcher's routing, which is in
src/port/state/mod.rs, so SlaveState is kept as an abstract placeholder
with inert operations that only occupy the delegation branches no claim
exercises. -/
inductive SlaveState where
  | mk
deriving DecidableEq, Repr

/-- Placeholder slave operation (see SlaveState). -/
def SlaveState.handle_timestamp (s : SlaveState) (_context : TimestampContext)
    (_timestamp : Time) : SlaveState × List PortAction := (s, [])

/-- Placeholder slave operation (see SlaveState). -/
def SlaveState.handle_event_receive (s : SlaveState) (_message : Message)
    (_timestamp : Time) : SlaveState × List PortAction := (s, [])

/-- Placeholder slave operation (see SlaveState). -/
def SlaveState.handle_general_receive (s : SlaveState) (_message : Message)
    (_port_identity : PortIdentity) : SlaveState := s

/-- Placeholder slave operation (see SlaveState). -/
def SlaveState.send_delay_request (s : SlaveState) (_rng : Nat)
    (_port_config : PortConfig) (_port_identity : PortIdentity)
    (_default_ds : DefaultDS) (_cap : Nat) : SlaveState × List PortAction :=
  (s, [])

/-- Placeholder slave operation (see SlaveState). -/
def SlaveState.extract_measurement (s : SlaveState) :
    SlaveState × Option Measurement := (s, none)

/-- Port state: tagged variant over the four roles
(src/statime/src/port/state/mod.rs); the default is Listening. -/
inductive PortState where
  | Listening
  | Master (s : MasterState)
  | Passive
  | Slave (s : SlaveState)
deriving DecidableEq, Repr

/-- PortState::handle_timestamp dispatcher. -/
def PortState.handle_timestamp (p : PortState) (context : TimestampContext)
    (timestamp : Time) (port_identity : PortIdentity) (default_ds : DefaultDS)
    (cap : Nat) : PortState × List PortAction :=
  match p with
  | .Slave slave =>
    let r := slave.handle_timestamp context timestamp
    (.Slave r.fst, r.snd)
  | .Master master =>
    let r := master.handle_timestamp context timestamp port_identity default_ds cap
    (.Master r.fst, r.snd)
  | .Listening | .Passive => (p, [])

/-- PortState::handle_event_receive dispatcher. -/
def PortState.handle_event_receive (p : PortState) (message : Message)
    (timestamp : Time) (min_delay_req_interval : PtpInterval)
    (port_identity : PortIdentity) (cap : Nat) : PortState × List PortAction :=
  match p with
  | .Master master =>
    let r := master.handle_event_receive message timestamp min_delay_req_interval
      port_identity cap
    (.Master r.fst, r.snd)
  | .Slave slave =>
    let r := slave.handle_event_receive message timestamp
    (.Slave r.fst, r.snd)
  | .Listening | .Passive => (p, [])

/-- PortState::handle_general_receive dispatcher (no action output in the
source; the master branch only logs). -/
def PortState.handle_general_receive (p : PortState) (message : Message)
    (port_identity : PortIdentity) : PortState :=
  match p with
  | .Master m => .Master m
  | .Slave slave => .Slave (slave.handle_general_receive message port_identity)
  | .Listening | .Passive => p

/-- PortState::send_sync dispatcher. -/
def PortState.send_sync (p : PortState) (local_clock : Option Time)
    (config : PortConfig) (port_identity : PortIdentity)
    (default_ds : DefaultDS) (cap : Nat) : PortState × List PortAction :=
  match p with
  | .Master master =>
    let r := master.send_sync local_clock config port_identity default_ds cap
    (.Master r.fst, r.snd)
  | .Slave _ | .Listening | .Passive => (p, [])

/-- PortState::send_delay_request dispatcher. -/
def PortState.send_delay_request (p : PortState) (rng : Nat)
    (port_config : PortConfig) (port_identity : PortIdentity)
    (default_ds : DefaultDS) (cap : Nat) : PortState × List PortAction :=
  match p with
  | .Slave slave =>
    let r := slave.send_delay_request rng port_config port_identity default_ds cap
    (.Slave r.fst, r.snd)
  | .Master _ | .Listening | .Passive => (p, [])

/-- PortState::send_announce dispatcher. -/
def PortState.send_announce (p : PortState) (global : PtpInstanceState)
    (config : PortConfig) (port_identity : PortIdentity) (cap : Nat) :
    PortState × List PortAction :=
  match p with
  | .Master master =>
    let r := master.send_announce global config port_identity cap
    (.Master r.fst, r.snd)
  | .Slave _ | .Listening | .Passive => (p, [])

/-- PortState::extract_measurement dispatcher. -/
def PortState.extract_measurement (p : PortState) :
    PortState × Option Measurement :=
  match p with
  | .Slave slave =>
    let r := slave.extract_measurement
    (.Slave r.fst, r.snd)
  | .Master _ | .Listening | .Passive => (p, none)

/-- Big-endian bytes of a natural number on k bytes (most significant
first); the value is taken modulo 256 to the k. -/
def natToBeBytes : Nat → Nat → List Nat
  | 0, _ => []
  | k + 1, n => natToBeBytes k (n / 256) ++ [n % 256]

/-- Value of a big-endian byte list. -/
def beBytesToNat (bs : List Nat) : Nat :=
  bs.foldl (fun acc b => acc * 256 + b) 0

/-- Modelled from the spec: WireTimestamp::serialize writes the 48-bit
seconds big-endian into bytes 0..6 and the 32-bit nanoseconds big-endian
into bytes 6..10 of a 10 byte slice. -/
def WireTimestamp.serialize (ts : WireTimestamp) : List Nat :=
  natToBeBytes 6 ts.seconds ++ natToBeBytes 4 ts.nanos

/-- Modelled from the spec: WireTimestamp::deserialize reads the 48-bit
seconds and 32-bit nanoseconds from a buffer of at least 10 bytes. -/
def WireTimestamp.deserialize (buffer : List Nat) :
    Except WireFormatError WireTimestamp :=
  if buffer.length < 10 then .error .BufferTooShort
  else .ok { seconds := beBytesToNat (buffer.take 6)
             nanos := beBytesToNat ((buffer.drop 6).take 4) }

/-- Outcome of a body serialization call, distinguishing a Rust panic
(the unguarded out of bounds slice) from a returned error. -/
inductive SerResult where
  | ok (bytes : List Nat)
  | panicked
  | err (e : WireFormatError)
deriving DecidableEq, Repr

/-- DelayReqMessage::content_size from the source. -/
def DelayReqMessage.content_size (_m : DelayReqMessage) : Nat := 10

/-- DelayReqMessage::serialize_content from the source: the unguarded
slice buffer[0..10] panics when the buffer is shorter than 10 bytes;
otherwise the origin timestamp is written into bytes 0..10 and the rest
of the buffer is untouched. -/
def DelayReqMessage.serialize_content (m : DelayReqMessage)
    (buffer : List Nat) : SerResult :=
  if buffer.length < 10 then .panicked
  else .ok (m.origin_timestamp.serialize ++ buffer.drop 10)

/-- DelayReqMessage::deserialize_content from the source: the guarded
get(0..10) turns a short buffer into BufferTooShort; otherwise the origin
timestamp is read from bytes 0..10 and paired with the given header. -/
def DelayReqMessage.deserialize_content (header : Header)
    (buffer : List Nat) : Except WireFormatError DelayReqMessage :=
  if buffer.length < 10 then .error .BufferTooShort
  else
    match WireTimestamp.deserialize (buffer.take 10) with
    | .error e => .error e
    | .ok ts => .ok { header := header, origin_timestamp := ts }

/-- Sequence ids sent in time-critical Sync messages of an action list. -/
def sentSyncSeqIds (as : List PortAction) : List Nat :=
  as.filterMap fun a =>
    match a with
    | .SendTimeCritical _ (Message.Sync m) => some m.header.sequence_id
    | _ => none

/-- Sequence ids sent in general Announce messages of an action list. -/
def sentAnnounceSeqIds (as : List PortAction) : List Nat :=
  as.filterMap fun a =>
    match a with
    | .SendGeneral (Message.Announce m) => some m.header.sequence_id
    | _ => none

/-- A 16-bit post-incremented counter never repeats on the immediately
following read. -/
theorem curr_ne_next (c : Nat) : c ≠ (c + 1) % 65536 := by omega

/-- natToBeBytes produces exactly k bytes. -/
theorem natToBeBytes_length (k n : Nat) : (natToBeBytes k n).length = k := by
  induction k generalizing n with
  | zero => rfl
  | succ k ih => simp [natToBeBytes, ih]

/-- Reading one more big-endian byte shifts the accumulated value. -/
theorem beBytesToNat_append_one (xs : List Nat) (b : Nat) :
    beBytesToNat (xs ++ [b]) = beBytesToNat xs * 256 + b := by
  simp [beBytesToNat, List.foldl_append]

/-- Big-endian encoding of a value below 256 to the k decodes to itself. -/
theorem beBytesToNat_natToBeBytes (k n : Nat) (h : n < 256 ^ k) :
    beBytesToNat (natToBeBytes k n) = n := by
  induction k generalizing n with
  | zero =>
    simp only [natToBeBytes, beBytesToNat, List.foldl_nil]
    simp only [pow_zero] at h
    omega
  | succ k ih =>
    have hdiv : n / 256 < 256 ^ k := by
      apply Nat.div_lt_of_lt_mul
      rw [Nat.pow_succ] at h
      omega
    rw [natToBeBytes, beBytesToNat_append_one, ih _ hdiv]
    omega

/-- The serialized wire timestamp is 10 bytes long. -/
theorem WireTimestamp.serialize_length (ts : WireTimestamp) :
    ts.serialize.length = 10 := by
  simp [WireTimestamp.serialize, natToBeBytes_length]

/-- Deserializing a serialized wire timestamp recovers it, for values
representable in the 48-bit and 32-bit wire fields. -/
theorem WireTimestamp.deserialize_serialize (ts : WireTimestamp)
    (hs : ts.seconds < 281474976710656) (hn : ts.nanos < 4294967296) :
    WireTimestamp.deserialize ts.serialize = Except.ok ts := by
  have h6 : (natToBeBytes 6 ts.seconds).length = 6 := natToBeBytes_length _ _
  have h4 : (natToBeBytes 4 ts.nanos).length = 4 := natToBeBytes_length _ _
  unfold WireTimestamp.deserialize
  rw [if_neg (by rw [WireTimestamp.serialize_length]; omega)]
  unfold WireTimestamp.serialize
  rw [show (natToBeBytes 6 ts.seconds ++ natToBeBytes 4 ts.nanos).take 6
        = natToBeBytes 6 ts.seconds from by rw [← h6]; exact List.take_left _ _]
  rw [show (natToBeBytes 6 ts.seconds ++ natToBeBytes 4 ts.nanos).drop 6
        = natToBeBytes 4 ts.nanos from by rw [← h6]; exact List.drop_left _ _]
  rw [show (natToBeBytes 4 ts.nanos).take 4 = natToBeBytes 4 ts.nanos from by
        rw [← h4]; exact List.take_length _]
  rw [beBytesToNat_natToBeBytes 6 _ (by norm_num; omega),
      beBytesToNat_natToBeBytes 4 _ (by norm_num; omega)]

/-- Successful send_sync: the clock borrow succeeded and the buffer holds
the 44 byte Sync; the generator advances and both actions are emitted. -/
theorem send_sync_some_ok (s : MasterState) (t : Time) (cfg : PortConfig)
    (pid : PortIdentity) (dds : DefaultDS) (cap : Nat) (h : 44 ≤ cap) :
    MasterState.send_sync s (some t) cfg pid dds cap =
      ({ s with sync_seq_ids := ⟨(s.sync_seq_ids.curr_id + 1) % 65536⟩ },
       [PortAction.ResetSyncTimer cfg.sync_interval.asCoreDurationNanos,
        PortAction.SendTimeCritical ⟨.Sync s.sync_seq_ids.curr_id⟩
          (Message.sync dds pid s.sync_seq_ids.curr_id t)]) := by
  unfold MasterState.send_sync
  simp [SequenceIdGenerator.generate, Message.serializeLen, Message.contentSize,
        Message.sync, h]

/-- send_sync with a successful clock borrow always advances the sync
sequence generator, whether or not serialization succeeds. -/
theorem send_sync_some_fst (s : MasterState) (t : Time) (cfg : PortConfig)
    (pid : PortIdentity) (dds : DefaultDS) (cap : Nat) :
    (MasterState.send_sync s (some t) cfg pid dds cap).fst
      = { s with sync_seq_ids := ⟨(s.sync_seq_ids.curr_id + 1) % 65536⟩ } := by
  unfold MasterState.send_sync
  dsimp only [SequenceIdGenerator.generate]
  split <;> rfl

/-- Successful send_announce: the clock borrow succeeded and the buffer
holds the 64 byte Announce. -/
theorem send_announce_some_ok (s : MasterState) (t : Time)
    (g : PtpInstanceState) (cfg : PortConfig) (pid : PortIdentity) (cap : Nat)
    (h : 64 ≤ cap) (hg : g.local_clock = some t) :
    MasterState.send_announce s g cfg pid cap =
      ({ s with announce_seq_ids := ⟨(s.announce_seq_ids.curr_id + 1) % 65536⟩ },
       [PortAction.ResetAnnounceTimer cfg.announce_interval.asCoreDurationNanos,
        PortAction.SendGeneral
          (Message.announce g pid s.announce_seq_ids.curr_id t)]) := by
  unfold MasterState.send_announce
  rw [hg]
  simp [SequenceIdGenerator.generate, Message.serializeLen, Message.contentSize,
        Message.announce, h]

/-- Successful handle_delay_req: the buffer holds the 54 byte DelayResp. -/
theorem handle_delay_req_ok (s : MasterState) (m : DelayReqMessage) (t : Time)
    (mdri : PtpInterval) (pid : PortIdentity) (cap : Nat) (h : 54 ≤ cap) :
    MasterState.handle_delay_req s m t mdri pid cap
      = (s, [PortAction.SendGeneral (Message.delay_resp m pid mdri t)]) := by
  unfold MasterState.handle_delay_req
  simp [Message.serializeLen, Message.contentSize, Message.delay_resp, h]

/-- Successful handle_sync_timestamp: the buffer holds the 44 byte
FollowUp. -/
theorem handle_sync_timestamp_ok (s : MasterState) (id : Nat) (t : Time)
    (pid : PortIdentity) (dds : DefaultDS) (cap : Nat) (h : 44 ≤ cap) :
    MasterState.handle_sync_timestamp s id t pid dds cap
      = (s, [PortAction.SendGeneral (Message.follow_up dds pid id t)]) := by
  unfold MasterState.handle_sync_timestamp
  simp [Message.serializeLen, Message.contentSize, Message.follow_up, h]

/-- C1: for every incoming DelayReq whose sourcePortIdentity differs from
the port's own identity (with a buffer that can hold the 54 byte
DelayResp), MasterState::handle_event_receive emits exactly one
SendGeneral action containing a DelayResp whose requestingPortIdentity
equals the request's sourcePortIdentity, whose sequenceId equals the
request's, whose receiveTimestamp is the ingress timestamp truncated to
whole nanoseconds, whose logMessageInterval is the log2 of
minDelayReqInterval, and whose correctionField equals the request's
correctionField plus the ingress timestamp's sub-nanosecond residue. -/
theorem delay_req_produces_delay_resp (s : MasterState) (m : DelayReqMessage)
    (t : Time) (mdri : PtpInterval) (pid : PortIdentity) (cap : Nat)
    (hsrc : m.header.source_port_identity ≠ pid) (hcap : 54 ≤ cap) :
    ∃ resp : DelayRespMessage,
      (MasterState.handle_event_receive s (Message.DelayReq m) t mdri pid
          cap).snd
        = [PortAction.SendGeneral (Message.DelayResp resp)] ∧
      resp.requesting_port_identity = m.header.source_port_identity ∧
      resp.header.sequence_id = m.header.sequence_id ∧
      resp.receive_timestamp = t.truncatedWire ∧
      resp.header.log_message_interval = mdri.log_2 ∧
      resp.header.correction_field
        = m.header.correction_field + t.subnanoTI := by
  refine ⟨{ header := { sequence_id := m.header.sequence_id
                        source_port_identity := pid
                        correction_field :=
                          m.header.correction_field + t.subnanoTI
                        log_message_interval := mdri.log_2
                        two_step_flag := false }
            receive_timestamp := t.truncatedWire
            requesting_port_identity := m.header.source_port_identity },
         ?_, rfl, rfl, rfl, rfl, rfl⟩
  unfold MasterState.handle_event_receive
  rw [show (Message.DelayReq m).header = m.header from rfl, if_neg hsrc]
  dsimp only
  rw [handle_delay_req_ok s m t mdri pid cap hcap]
  rfl

/-- Witness for C1 at the spec's scenario S3: sequence id 5123, source
port number 83, correction 400, ingress time 200 microseconds plus 500
sub-nanosecond units, minimum DelayReq interval log2 equal to 2. -/
theorem delay_req_produces_delay_resp_witness :
    ∃ resp : DelayRespMessage,
      (MasterState.handle_event_receive ⟨⟨0⟩, ⟨0⟩⟩
          (Message.DelayReq ⟨⟨5123, ⟨0, 83⟩, 400, 0, false⟩, ⟨0, 0⟩⟩)
          ⟨200000 * 4294967296 + 500 * 65536⟩ ⟨2⟩ ⟨0, 0⟩ 255).snd
        = [PortAction.SendGeneral (Message.DelayResp resp)] ∧
      resp.requesting_port_identity
        = (⟨⟨5123, ⟨0, 83⟩, 400, 0, false⟩, ⟨0, 0⟩⟩ :
            DelayReqMessage).header.source_port_identity ∧
      resp.header.sequence_id = 5123 ∧
      resp.receive_timestamp
        = Time.truncatedWire ⟨200000 * 4294967296 + 500 * 65536⟩ ∧
      resp.header.log_message_interval = 2 ∧
      resp.header.correction_field
        = 400 + Time.subnanoTI ⟨200000 * 4294967296 + 500 * 65536⟩ :=
  delay_req_produces_delay_resp ⟨⟨0⟩, ⟨0⟩⟩
    ⟨⟨5123, ⟨0, 83⟩, 400, 0, false⟩, ⟨0, 0⟩⟩
    ⟨200000 * 4294967296 + 500 * 65536⟩ ⟨2⟩ ⟨0, 0⟩ 255
    (by decide) (by decide)

/-- C2: for every timestamp context whose inner variant is Sync with some
id (with a buffer that can hold the 44 byte FollowUp),
MasterState::handle_timestamp emits exactly one SendGeneral containing a
FollowUp whose sequenceId equals the id and whose
preciseOriginTimestamp is the egress time truncated to whole
nanoseconds, with the sub-nanosecond residue in the correctionField; for
any context whose inner variant is not Sync it returns no actions. -/
theorem handle_timestamp_sync_follow_up (s : MasterState)
    (ctx : TimestampContext) (t : Time) (pid : PortIdentity)
    (dds : DefaultDS) (cap : Nat) (hcap : 44 ≤ cap) :
    (∀ id, ctx.inner = .Sync id →
      ∃ fu : FollowUpMessage,
        (MasterState.handle_timestamp s ctx t pid dds cap).snd
          = [PortAction.SendGeneral (Message.FollowUp fu)] ∧
        fu.header.sequence_id = id ∧
        fu.precise_origin_timestamp = t.truncatedWire ∧
        fu.header.correction_field = t.subnanoTI) ∧
    ((∀ id, ctx.inner ≠ .Sync id) →
      (MasterState.handle_timestamp s ctx t pid dds cap).snd = []) := by
  constructor
  · intro id hid
    refine ⟨{ header := { sequence_id := id
                          source_port_identity := pid
                          correction_field := t.subnanoTI
                          log_message_interval := 0
                          two_step_flag := false }
              precise_origin_timestamp := t.truncatedWire },
           ?_, rfl, rfl, rfl⟩
    unfold MasterState.handle_timestamp
    rw [hid]
    dsimp only
    rw [handle_sync_timestamp_ok s id t pid dds cap hcap]
    rfl
  · intro hne
    unfold MasterState.handle_timestamp
    cases hctx : ctx.inner with
    | Sync id => exact absurd hctx (hne id)
    | DelayReq id => rfl

/-- Witness for C2 at the spec's scenario S1 follow-up step: context Sync
with id 0, egress time 601300 nanoseconds plus 230 sub-nanosecond
units. -/
theorem handle_timestamp_sync_follow_up_witness :
    (∀ id, (⟨.Sync 0⟩ : TimestampContext).inner = .Sync id →
      ∃ fu : FollowUpMessage,
        (MasterState.handle_timestamp ⟨⟨0⟩, ⟨1⟩⟩ ⟨.Sync 0⟩
            ⟨601300 * 4294967296 + 230 * 65536⟩ ⟨0, 0⟩ ⟨0, 15, 128, 0, false, 0⟩
            255).snd
          = [PortAction.SendGeneral (Message.FollowUp fu)] ∧
        fu.header.sequence_id = id ∧
        fu.precise_origin_timestamp
          = Time.truncatedWire ⟨601300 * 4294967296 + 230 * 65536⟩ ∧
        fu.header.correction_field
          = Time.subnanoTI ⟨601300 * 4294967296 + 230 * 65536⟩) ∧
    ((∀ id, (⟨.Sync 0⟩ : TimestampContext).inner = .Sync id → False) →
      (MasterState.handle_timestamp ⟨⟨0⟩, ⟨1⟩⟩ ⟨.Sync 0⟩
          ⟨601300 * 4294967296 + 230 * 65536⟩ ⟨0, 0⟩ ⟨0, 15, 128, 0, false, 0⟩
          255).snd = []) :=
  handle_timestamp_sync_follow_up ⟨⟨0⟩, ⟨1⟩⟩ ⟨.Sync 0⟩
    ⟨601300 * 4294967296 + 230 * 65536⟩ ⟨0, 0⟩ ⟨0, 15, 128, 0, false, 0⟩ 255
    (by decide)

/-- C3: every successful send_sync (clock borrow succeeded, buffer holds
the 44 byte Sync) returns exactly two actions in order: a ResetSyncTimer
carrying the configured sync interval, then a SendTimeCritical whose
context is Sync with the sequenceId embedded in the Sync message, whose
originTimestamp is the clock time truncated to whole nanoseconds and
whose correctionField is zero. -/
theorem send_sync_two_actions (s : MasterState) (t : Time) (cfg : PortConfig)
    (pid : PortIdentity) (dds : DefaultDS) (cap : Nat) (hcap : 44 ≤ cap) :
    ∃ (seq : Nat) (sm : SyncMessage),
      (MasterState.send_sync s (some t) cfg pid dds cap).snd
        = [PortAction.ResetSyncTimer cfg.sync_interval.asCoreDurationNanos,
           PortAction.SendTimeCritical ⟨.Sync seq⟩ (Message.Sync sm)] ∧
      sm.header.sequence_id = seq ∧
      sm.origin_timestamp = t.truncatedWire ∧
      sm.header.correction_field = 0 := by
  refine ⟨s.sync_seq_ids.curr_id,
          { header := { sequence_id := s.sync_seq_ids.curr_id
                        source_port_identity := pid
                        correction_field := 0
                        log_message_interval := 0
                        two_step_flag := true }
            origin_timestamp := t.truncatedWire },
          ?_, rfl, rfl, rfl⟩
  rw [send_sync_some_ok s t cfg pid dds cap hcap]
  rfl

/-- Witness for C3 at the spec's scenario S1: clock at 600000 nanoseconds
plus 248 sub-nanosecond units, sync interval log2 zero (one second). -/
theorem send_sync_two_actions_witness :
    ∃ (seq : Nat) (sm : SyncMessage),
      (MasterState.send_sync ⟨⟨0⟩, ⟨0⟩⟩ (some ⟨600000 * 4294967296 + 248 * 65536⟩)
          ⟨⟨1⟩, ⟨1⟩, 2, ⟨0⟩, false, 0⟩ ⟨0, 0⟩ ⟨0, 15, 128, 0, false, 0⟩ 255).snd
        = [PortAction.ResetSyncTimer
             (PtpInterval.asCoreDurationNanos ⟨0⟩),
           PortAction.SendTimeCritical ⟨.Sync seq⟩ (Message.Sync sm)] ∧
      sm.header.sequence_id = seq ∧
      sm.origin_timestamp
        = Time.truncatedWire ⟨600000 * 4294967296 + 248 * 65536⟩ ∧
      sm.header.correction_field = 0 :=
  send_sync_two_actions ⟨⟨0⟩, ⟨0⟩⟩ ⟨600000 * 4294967296 + 248 * 65536⟩
    ⟨⟨1⟩, ⟨1⟩, 2, ⟨0⟩, false, 0⟩ ⟨0, 0⟩ ⟨0, 15, 128, 0, false, 0⟩ 255 (by decide)

/-- C4: every event message whose sourcePortIdentity equals the receiving
port's own identity makes MasterState::handle_event_receive return no
actions (and leave the state unchanged), regardless of the message
variant, the ingress timestamp or the MasterState contents. -/
theorem self_sourced_event_dropped (s : MasterState) (msg : Message)
    (t : Time) (mdri : PtpInterval) (pid : PortIdentity) (cap : Nat)
    (h : msg.header.source_port_identity = pid) :
    MasterState.handle_event_receive s msg t mdri pid cap = (s, []) := by
  unfold MasterState.handle_event_receive
  rw [if_pos h]

/-- Witness for C4: a self-sourced DelayReq (scenario S4) produces no
actions. -/
theorem self_sourced_event_dropped_witness :
    MasterState.handle_event_receive ⟨⟨3⟩, ⟨7⟩⟩
        (Message.DelayReq ⟨⟨5123, ⟨0, 83⟩, 400, 0, false⟩, ⟨0, 0⟩⟩)
        ⟨200000 * 4294967296 + 500 * 65536⟩ ⟨2⟩ ⟨0, 83⟩ 255
      = (⟨⟨3⟩, ⟨7⟩⟩, []) :=
  self_sourced_event_dropped ⟨⟨3⟩, ⟨7⟩⟩
    (Message.DelayReq ⟨⟨5123, ⟨0, 83⟩, 400, 0, false⟩, ⟨0, 0⟩⟩)
    ⟨200000 * 4294967296 + 500 * 65536⟩ ⟨2⟩ ⟨0, 83⟩ 255 (by decide)

/-- C5: the Listening and Passive states absorb every dispatcher
operation with no actions and an unchanged state, and role-inappropriate
calls (send_sync or send_announce on a Slave port, send_delay_request or
extract_measurement on a Master port) likewise return no actions (or
none) with an unchanged state instead of failing. -/
theorem wrong_role_and_idle_states_inert (ctx : TimestampContext) (t : Time)
    (pid : PortIdentity) (dds : DefaultDS) (cap : Nat) (msg : Message)
    (mdri : PtpInterval) (clock : Option Time) (cfg : PortConfig)
    (g : PtpInstanceState) (rng : Nat) (sl : SlaveState) (ms : MasterState) :
    PortState.handle_timestamp .Listening ctx t pid dds cap
      = (.Listening, []) ∧
    PortState.handle_timestamp .Passive ctx t pid dds cap = (.Passive, []) ∧
    PortState.handle_event_receive .Listening msg t mdri pid cap
      = (.Listening, []) ∧
    PortState.handle_event_receive .Passive msg t mdri pid cap
      = (.Passive, []) ∧
    PortState.handle_general_receive .Listening msg pid = .Listening ∧
    PortState.handle_general_receive .Passive msg pid = .Passive ∧
    PortState.send_sync .Listening clock cfg pid dds cap = (.Listening, []) ∧
    PortState.send_sync .Passive clock cfg pid dds cap = (.Passive, []) ∧
    PortState.send_delay_request .Listening rng cfg pid dds cap
      = (.Listening, []) ∧
    PortState.send_delay_request .Passive rng cfg pid dds cap
      = (.Passive, []) ∧
    PortState.send_announce .Listening g cfg pid cap = (.Listening, []) ∧
    PortState.send_announce .Passive g cfg pid cap = (.Passive, []) ∧
    PortState.extract_measurement .Listening = (.Listening, none) ∧
    PortState.extract_measurement .Passive = (.Passive, none) ∧
    PortState.send_sync (.Slave sl) clock cfg pid dds cap = (.Slave sl, []) ∧
    PortState.send_announce (.Slave sl) g cfg pid cap = (.Slave sl, []) ∧
    PortState.send_delay_request (.Master ms) rng cfg pid dds cap
      = (.Master ms, []) ∧
    PortState.extract_measurement (.Master ms) = (.Master ms, none) :=
  ⟨rfl, rfl, rfl, rfl, rfl, rfl, rfl, rfl, rfl, rfl, rfl, rfl, rfl, rfl, rfl,
   rfl, rfl, rfl⟩

/-- C6: when the clock borrow fails, send_sync returns no actions (in
particular no ResetSyncTimer), leaves the whole state including the sync
sequence counter unchanged, and a subsequent successful send_sync uses
the sequenceId the failed call would have used. -/
theorem send_sync_clock_busy_preserves_counter (s : MasterState)
    (cfg : PortConfig) (pid : PortIdentity) (dds : DefaultDS)
    (cap cap2 : Nat) (t : Time) (hcap2 : 44 ≤ cap2) :
    MasterState.send_sync s none cfg pid dds cap = (s, []) ∧
    ∃ sm : SyncMessage,
      (MasterState.send_sync
          (MasterState.send_sync s none cfg pid dds cap).fst
          (some t) cfg pid dds cap2).snd
        = [PortAction.ResetSyncTimer cfg.sync_interval.asCoreDurationNanos,
           PortAction.SendTimeCritical ⟨.Sync s.sync_seq_ids.curr_id⟩
             (Message.Sync sm)] ∧
      sm.header.sequence_id = s.sync_seq_ids.curr_id := by
  refine ⟨rfl, ?_⟩
  refine ⟨{ header := { sequence_id := s.sync_seq_ids.curr_id
                        source_port_identity := pid
                        correction_field := 0
                        log_message_interval := 0
                        two_step_flag := true }
            origin_timestamp := t.truncatedWire },
         ?_, rfl⟩
  rw [show (MasterState.send_sync s none cfg pid dds cap).fst = s from rfl]
  rw [send_sync_some_ok s t cfg pid dds cap2 hcap2]
  rfl

/-- Witness for C6: clock busy with a fresh master state, then a
successful call which uses sequenceId zero. -/
theorem send_sync_clock_busy_preserves_counter_witness :
    MasterState.send_sync ⟨⟨0⟩, ⟨0⟩⟩ none ⟨⟨1⟩, ⟨1⟩, 2, ⟨0⟩, false, 0⟩ ⟨0, 0⟩
        ⟨0, 15, 128, 0, false, 0⟩ 255 = (⟨⟨0⟩, ⟨0⟩⟩, []) ∧
    ∃ sm : SyncMessage,
      (MasterState.send_sync
          (MasterState.send_sync ⟨⟨0⟩, ⟨0⟩⟩ none ⟨⟨1⟩, ⟨1⟩, 2, ⟨0⟩, false, 0⟩
            ⟨0, 0⟩ ⟨0, 15, 128, 0, false, 0⟩ 255).fst
          (some ⟨600000 * 4294967296 + 248 * 65536⟩)
          ⟨⟨1⟩, ⟨1⟩, 2, ⟨0⟩, false, 0⟩ ⟨0, 0⟩ ⟨0, 15, 128, 0, false, 0⟩
          255).snd
        = [PortAction.ResetSyncTimer
             (PtpInterval.asCoreDurationNanos ⟨0⟩),
           PortAction.SendTimeCritical
             ⟨.Sync (⟨⟨0⟩, ⟨0⟩⟩ : MasterState).sync_seq_ids.curr_id⟩
             (Message.Sync sm)] ∧
      sm.header.sequence_id = (⟨⟨0⟩, ⟨0⟩⟩ : MasterState).sync_seq_ids.curr_id :=
  send_sync_clock_busy_preserves_counter ⟨⟨0⟩, ⟨0⟩⟩
    ⟨⟨1⟩, ⟨1⟩, 2, ⟨0⟩, false, 0⟩ ⟨0, 0⟩ ⟨0, 15, 128, 0, false, 0⟩ 255 255
    ⟨600000 * 4294967296 + 248 * 65536⟩ (by decide)

/-- C7 counterexample: with the clock available but a zero capacity
buffer, send_sync fails serialization and returns no actions, yet the
sync sequence counter advances from 0 to 1; the claim that the counter
is unchanged on every failure path is therefore false on the code. -/
theorem send_sync_serialize_failure_advances_counter_cex :
    (MasterState.send_sync ⟨⟨0⟩, ⟨0⟩⟩ (some ⟨0⟩)
        ⟨⟨0⟩, ⟨0⟩, 0, ⟨0⟩, false, 0⟩ ⟨0, 0⟩ ⟨0, 0, 0, 0, false, 0⟩ 0).snd
      = [] ∧
    (MasterState.send_sync ⟨⟨0⟩, ⟨0⟩⟩ (some ⟨0⟩)
        ⟨⟨0⟩, ⟨0⟩, 0, ⟨0⟩, false, 0⟩ ⟨0, 0⟩ ⟨0, 0, 0, 0, false, 0⟩
        0).fst.sync_seq_ids.curr_id = 1 ∧
    (⟨⟨0⟩, ⟨0⟩⟩ : MasterState).sync_seq_ids.curr_id = 0 := by
  exact ⟨rfl, rfl, rfl⟩

/-- C7 (amended): send_sync advances the sync sequence counter whenever
the clock borrow succeeds, even when serialization then fails; the
serialization failure path still returns no actions, and only the
clock-busy path leaves the counter unchanged, so after a serialization
failure the next send_sync uses the next sequenceId, not the same
one. -/
theorem send_sync_counter_advance_amended (s : MasterState) (t : Time)
    (cfg : PortConfig) (pid : PortIdentity) (dds : DefaultDS) (cap : Nat) :
    (MasterState.send_sync s (some t) cfg pid dds cap).fst.sync_seq_ids.curr_id
      = (s.sync_seq_ids.curr_id + 1) % 65536 ∧
    (cap < 44 → (MasterState.send_sync s (some t) cfg pid dds cap).snd = []) ∧
    MasterState.send_sync s none cfg pid dds cap = (s, []) := by
  refine ⟨?_, ?_, rfl⟩
  · rw [send_sync_some_fst]
  · intro hlt
    unfold MasterState.send_sync
    dsimp only [SequenceIdGenerator.generate]
    rw [show (Message.sync dds pid s.sync_seq_ids.curr_id t).serializeLen cap
          = Except.error WireFormatError.BufferTooShort from by
        unfold Message.serializeLen
        rw [if_neg (by
          rw [show (Message.sync dds pid s.sync_seq_ids.curr_id t).contentSize
                = 10 from rfl]
          omega)]]

/-- Witness for C7 (amended): a serialization failure with the clock
available consumes sequenceId 0 and returns no actions. -/
theorem send_sync_counter_advance_amended_witness :
    (MasterState.send_sync ⟨⟨0⟩, ⟨0⟩⟩ (some ⟨0⟩)
        ⟨⟨0⟩, ⟨0⟩, 0, ⟨0⟩, false, 0⟩ ⟨0, 0⟩ ⟨0, 0, 0, 0, false, 0⟩
        0).fst.sync_seq_ids.curr_id = (0 + 1) % 65536 ∧
    ((0 : Nat) < 44 → (MasterState.send_sync ⟨⟨0⟩, ⟨0⟩⟩ (some ⟨0⟩)
        ⟨⟨0⟩, ⟨0⟩, 0, ⟨0⟩, false, 0⟩ ⟨0, 0⟩ ⟨0, 0, 0, 0, false, 0⟩ 0).snd
        = []) ∧
    MasterState.send_sync ⟨⟨0⟩, ⟨0⟩⟩ none ⟨⟨0⟩, ⟨0⟩, 0, ⟨0⟩, false, 0⟩ ⟨0, 0⟩
        ⟨0, 0, 0, 0, false, 0⟩ 0 = (⟨⟨0⟩, ⟨0⟩⟩, []) :=
  send_sync_counter_advance_amended ⟨⟨0⟩, ⟨0⟩⟩ ⟨0⟩
    ⟨⟨0⟩, ⟨0⟩, 0, ⟨0⟩, false, 0⟩ ⟨0, 0⟩ ⟨0, 0, 0, 0, false, 0⟩ 0

/-- C8: two consecutive successful send_sync calls yield Sync messages
with different sequenceIds, and two consecutive successful send_announce
calls yield Announce messages with different sequenceIds, because each
generator returns its current 16-bit value and post-increments with
wrap-around. -/
theorem consecutive_seq_ids_differ (s : MasterState) (t1 t2 : Time)
    (g1 g2 : PtpInstanceState) (cfg : PortConfig) (pid : PortIdentity)
    (dds : DefaultDS) (cap : Nat) (hcap : 64 ≤ cap)
    (hg1 : g1.local_clock = some t1) (hg2 : g2.local_clock = some t2) :
    (∃ i j,
      sentSyncSeqIds
          (MasterState.send_sync s (some t1) cfg pid dds cap).snd = [i] ∧
      sentSyncSeqIds
          (MasterState.send_sync
            (MasterState.send_sync s (some t1) cfg pid dds cap).fst
            (some t2) cfg pid dds cap).snd = [j] ∧
      i ≠ j) ∧
    (∃ i j,
      sentAnnounceSeqIds
          (MasterState.send_announce s g1 cfg pid cap).snd = [i] ∧
      sentAnnounceSeqIds
          (MasterState.send_announce
            (MasterState.send_announce s g1 cfg pid cap).fst
            g2 cfg pid cap).snd = [j] ∧
      i ≠ j) := by
  have h44 : 44 ≤ cap := by omega
  constructor
  · refine ⟨s.sync_seq_ids.curr_id, (s.sync_seq_ids.curr_id + 1) % 65536,
           ?_, ?_, curr_ne_next _⟩
    · rw [send_sync_some_ok s t1 cfg pid dds cap h44]
      rfl
    · rw [send_sync_some_ok s t1 cfg pid dds cap h44]
      rw [send_sync_some_ok _ t2 cfg pid dds cap h44]
      rfl
  · refine ⟨s.announce_seq_ids.curr_id, (s.announce_seq_ids.curr_id + 1) % 65536,
           ?_, ?_, curr_ne_next _⟩
    · rw [send_announce_some_ok s t1 g1 cfg pid cap hcap hg1]
      rfl
    · rw [send_announce_some_ok s t1 g1 cfg pid cap hcap hg1]
      rw [send_announce_some_ok _ t2 g2 cfg pid cap hcap hg2]
      rfl

/-- Witness for C8 at the spec's scenario S2 shape: a fresh master state,
clock readable at both calls, buffer of 255 bytes. -/
theorem consecutive_seq_ids_differ_witness :
    (∃ i j,
      sentSyncSeqIds
          (MasterState.send_sync ⟨⟨0⟩, ⟨0⟩⟩ (some ⟨600⟩)
            ⟨⟨1⟩, ⟨1⟩, 2, ⟨0⟩, false, 0⟩ ⟨0, 0⟩ ⟨0, 15, 128, 0, false, 0⟩
            255).snd = [i] ∧
      sentSyncSeqIds
          (MasterState.send_sync
            (MasterState.send_sync ⟨⟨0⟩, ⟨0⟩⟩ (some ⟨600⟩)
              ⟨⟨1⟩, ⟨1⟩, 2, ⟨0⟩, false, 0⟩ ⟨0, 0⟩ ⟨0, 15, 128, 0, false, 0⟩
              255).fst
            (some ⟨601⟩) ⟨⟨1⟩, ⟨1⟩, 2, ⟨0⟩, false, 0⟩ ⟨0, 0⟩
            ⟨0, 15, 128, 0, false, 0⟩ 255).snd = [j] ∧
      i ≠ j) ∧
    (∃ i j,
      sentAnnounceSeqIds
          (MasterState.send_announce ⟨⟨0⟩, ⟨0⟩⟩
            ⟨⟨0, 15, 128, 0, false, 0⟩, 15, some ⟨600⟩⟩
            ⟨⟨1⟩, ⟨1⟩, 2, ⟨0⟩, false, 0⟩ ⟨0, 0⟩ 255).snd = [i] ∧
      sentAnnounceSeqIds
          (MasterState.send_announce
            (MasterState.send_announce ⟨⟨0⟩, ⟨0⟩⟩
              ⟨⟨0, 15, 128, 0, false, 0⟩, 15, some ⟨600⟩⟩
              ⟨⟨1⟩, ⟨1⟩, 2, ⟨0⟩, false, 0⟩ ⟨0, 0⟩ 255).fst
            ⟨⟨0, 15, 128, 0, false, 0⟩, 15, some ⟨601⟩⟩
            ⟨⟨1⟩, ⟨1⟩, 2, ⟨0⟩, false, 0⟩ ⟨0, 0⟩ 255).snd = [j] ∧
      i ≠ j) :=
  consecutive_seq_ids_differ ⟨⟨0⟩, ⟨0⟩⟩ ⟨600⟩ ⟨601⟩
    ⟨⟨0, 15, 128, 0, false, 0⟩, 15, some ⟨600⟩⟩
    ⟨⟨0, 15, 128, 0, false, 0⟩, 15, some ⟨601⟩⟩
    ⟨⟨1⟩, ⟨1⟩, 2, ⟨0⟩, false, 0⟩ ⟨0, 0⟩ ⟨0, 15, 128, 0, false, 0⟩ 255
    (by decide) (by decide) (by decide)

/-- C9: deserializing the serialized content of a DelayReq round-trips:
when the buffer is long enough for serialize_content to succeed and the
timestamp fields fit the 48-bit seconds and 32-bit nanoseconds wire
fields, deserialize_content with the message's own header returns the
original message. -/
theorem delay_req_roundtrip (m : DelayReqMessage) (buffer : List Nat)
    (hsec : m.origin_timestamp.seconds < 281474976710656)
    (hnan : m.origin_timestamp.nanos < 4294967296)
    (out : List Nat)
    (hser : m.serialize_content buffer = SerResult.ok out) :
    DelayReqMessage.deserialize_content m.header out = Except.ok m := by
  unfold DelayReqMessage.serialize_content at hser
  by_cases hlen : buffer.length < 10
  · rw [if_pos hlen] at hser
    exact absurd hser (by simp)
  · rw [if_neg hlen] at hser
    have hout : out = m.origin_timestamp.serialize ++ buffer.drop 10 :=
      (SerResult.ok.inj hser).symm
    subst hout
    unfold DelayReqMessage.deserialize_content
    have hts : m.origin_timestamp.serialize.length = 10 :=
      WireTimestamp.serialize_length _
    rw [if_neg (by simp [List.length_append, hts])]
    rw [show (m.origin_timestamp.serialize ++ buffer.drop 10).take 10
          = m.origin_timestamp.serialize from by
        rw [← hts]; exact List.take_left _ _]
    rw [WireTimestamp.deserialize_serialize m.origin_timestamp hsec hnan]

/-- Witness for C9 at the source test vector: seconds 1169232218, nanos
174389936, general header, a fresh 10 byte buffer. -/
theorem delay_req_roundtrip_witness :
    DelayReqMessage.deserialize_content
        (⟨⟨5123, ⟨0, 83⟩, 400, 0, false⟩,
          ⟨1169232218, 174389936⟩⟩ : DelayReqMessage).header
        [0x00, 0x00, 0x45, 0xb1, 0x11, 0x5a, 0x0a, 0x64, 0xfa, 0xb0]
      = Except.ok ⟨⟨5123, ⟨0, 83⟩, 400, 0, false⟩, ⟨1169232218, 174389936⟩⟩ :=
  delay_req_roundtrip ⟨⟨5123, ⟨0, 83⟩, 400, 0, false⟩, ⟨1169232218, 174389936⟩⟩
    [0, 0, 0, 0, 0, 0, 0, 0, 0, 0] (by decide) (by decide)
    [0x00, 0x00, 0x45, 0xb1, 0x11, 0x5a, 0x0a, 0x64, 0xfa, 0xb0] (by decide)

/-- C10: serialize_content is total only for buffers of at least 10
bytes: there it returns Ok, writes exactly bytes 0..10 and leaves the
rest of the buffer untouched; on any shorter buffer the unguarded slice
panics and no BufferTooShort error is ever returned, whereas
deserialize_content guards and returns BufferTooShort on the same short
buffer. -/
theorem serialize_content_bounds (m : DelayReqMessage) (buffer : List Nat) :
    (10 ≤ buffer.length →
      m.serialize_content buffer
          = SerResult.ok (m.origin_timestamp.serialize ++ buffer.drop 10) ∧
      (m.origin_timestamp.serialize ++ buffer.drop 10).length
          = buffer.length ∧
      (m.origin_timestamp.serialize ++ buffer.drop 10).take 10
          = m.origin_timestamp.serialize ∧
      (m.origin_timestamp.serialize ++ buffer.drop 10).drop 10
          = buffer.drop 10) ∧
    (buffer.length < 10 → m.serialize_content buffer = SerResult.panicked) ∧
    (∀ e, m.serialize_content buffer ≠ SerResult.err e) ∧
    (buffer.length < 10 →
      DelayReqMessage.deserialize_content m.header buffer
        = Except.error WireFormatError.BufferTooShort) := by
  have hts : m.origin_timestamp.serialize.length = 10 :=
    WireTimestamp.serialize_length _
  refine ⟨?_, ?_, ?_, ?_⟩
  · intro hge
    refine ⟨?_, ?_, ?_, ?_⟩
    · unfold DelayReqMessage.serialize_content
      rw [if_neg (by omega)]
    · rw [List.length_append, hts, List.length_drop]
      omega
    · rw [← hts]; exact List.take_left _ _
    · rw [← hts]; exact List.drop_left _ _
  · intro hlt
    unfold DelayReqMessage.serialize_content
    rw [if_pos hlt]
  · intro e
    unfold DelayReqMessage.serialize_content
    split
    · exact fun h => SerResult.noConfusion h
    · exact fun h => SerResult.noConfusion h
  · intro hlt
    unfold DelayReqMessage.deserialize_content
    rw [if_pos hlt]

/-- Witness for C10 on a 12 byte buffer and on a 9 byte buffer. -/
theorem serialize_content_bounds_witness :
    ((10 : Nat) ≤ 12 →
      DelayReqMessage.serialize_content
          ⟨⟨5123, ⟨0, 83⟩, 400, 0, false⟩, ⟨1169232218, 174389936⟩⟩
          [1, 2, 3, 4, 5, 6, 7, 8, 9, 10, 11, 12]
          = SerResult.ok
              ((⟨1169232218, 174389936⟩ : WireTimestamp).serialize
                ++ [1, 2, 3, 4, 5, 6, 7, 8, 9, 10, 11, 12].drop 10) ∧
      ((⟨1169232218, 174389936⟩ : WireTimestamp).serialize
          ++ [1, 2, 3, 4, 5, 6, 7, 8, 9, 10, 11, 12].drop 10).length
          = [1, 2, 3, 4, 5, 6, 7, 8, 9, 10, 11, 12].length ∧
      ((⟨1169232218, 174389936⟩ : WireTimestamp).serialize
          ++ [1, 2, 3, 4, 5, 6, 7, 8, 9, 10, 11, 12].drop 10).take 10
          = (⟨1169232218, 174389936⟩ : WireTimestamp).serialize ∧
      ((⟨1169232218, 174389936⟩ : WireTimestamp).serialize
          ++ [1, 2, 3, 4, 5, 6, 7, 8, 9, 10, 11, 12].drop 10).drop 10
          = [1, 2, 3, 4, 5, 6, 7, 8, 9, 10, 11, 12].drop 10) ∧
    ([1, 2, 3, 4, 5, 6, 7, 8, 9, 10, 11, 12].length < 10 →
      DelayReqMessage.serialize_content
          ⟨⟨5123, ⟨0, 83⟩, 400, 0, false⟩, ⟨1169232218, 174389936⟩⟩
          [1, 2, 3, 4, 5, 6, 7, 8, 9, 10, 11, 12] = SerResult.panicked) ∧
    (∀ e, DelayReqMessage.serialize_content
          ⟨⟨5123, ⟨0, 83⟩, 400, 0, false⟩, ⟨1169232218, 174389936⟩⟩
          [1, 2, 3, 4, 5, 6, 7, 8, 9, 10, 11, 12] ≠ SerResult.err e) ∧
    ([1, 2, 3, 4, 5, 6, 7, 8, 9, 10, 11, 12].length < 10 →
      DelayReqMessage.deserialize_content
          (⟨⟨5123, ⟨0, 83⟩, 400, 0, false⟩,
            ⟨1169232218, 174389936⟩⟩ : DelayReqMessage).header
          [1, 2, 3, 4, 5, 6, 7, 8, 9, 10, 11, 12]
        = Except.error WireFormatError.BufferTooShort) :=
  serialize_content_bounds
    ⟨⟨5123, ⟨0, 83⟩, 400, 0, false⟩, ⟨1169232218, 174389936⟩⟩
    [1, 2, 3, 4, 5, 6, 7, 8, 9, 10, 11, 12]
